import Mathlib

/-!
Formal model of the CSV-to-JSON lead converter (src/csv_to_json_parser.py).

The script reads rows from a CSV file via csv.DictReader, turns each row
into a fixed 18-field record, collects the records in input order, and
serializes the list with json.dump(..., indent=2).

Modelling conventions, stated once here:

* a Row is the DictReader view of one data line: an association list from
  column name to cell string.  A missing key covers both a column absent
  from the header and the None restval of a short row, because every
  access in the script (get-with-default followed by an or-default, a
  bool() test, or a strptime call whose TypeError lands in a bare except)
  sends both cases to the same default value;
* Python float(s) is modelled as exact decimal parsing: the accepted
  grammar is optional surrounding ASCII whitespace, an optional sign, a
  digit string with optional fraction part and optional exponent, with
  single underscores between digits (PEP 515).  The value is kept as an
  exact rational; rounding to a binary double, the inf/nan spellings and
  non-ASCII digits are not modelled.  The strings inf and nan would be
  accepted by float() but make the subsequent int() raise, so mapping
  them to a parse failure gives the same observable abort;
* Python int() on that value truncates toward zero; on the exact decimal
  value this is computed with natural-number division on the magnitude;
* datetime.strptime(s, pattern) with the fixed pattern of the script is
  modelled after the regular expression CPython _strptime builds for it
  (field alternatives in their exact order, full-string match) followed
  by the datetime constructor validation of the field ranges.  Only
  ASCII digits and ASCII whitespace are modelled;
* an exception that the script does not catch is a none result; the bare
  except around the date parse is the option match in createDateOf.
-/

/-- One CSV data row as seen through csv.DictReader: column name to cell. -/
abbrev Row := List (String × String)

/-- Model of the Python expression a or b on strings: a if truthy else b. -/
def pyOrStr (a b : String) : String := if a = "" then b else a

/-- Model of Python bool() on a string: true iff the string is non-empty. -/
def pyTruthy (s : String) : Bool := s != ""

/-- Model of row.get(key, "") or "" from the script: the cell if present
and non-empty, otherwise the empty string. -/
def pyGetStr (row : Row) (k : String) : String := pyOrStr ((row.lookup k).getD "") ""

/-- Whitespace characters stripped by float() around a numeric literal
(ASCII subset). -/
def pyIsSpace (c : Char) : Bool :=
  c == ' ' || c == '\t' || c == '\n' || c == '\r' || c == '\x0b' || c == '\x0c'

/-- Strip leading and trailing whitespace from a character list. -/
def trimWs (cs : List Char) : List Char :=
  ((cs.dropWhile pyIsSpace).reverse.dropWhile pyIsSpace).reverse

/-- Numeric value of an ASCII digit character. -/
def digitVal (c : Char) : Nat := c.toNat - 48

/-- Consume further mantissa or exponent digits, allowing a single
underscore between two digits (PEP 515).  Returns the digit values read
and the unconsumed rest. -/
def moreDigits : List Char → List Nat × List Char
  | [] => ([], [])
  | '_' :: c :: cs =>
    if c.isDigit then
      let p := moreDigits cs
      (digitVal c :: p.1, p.2)
    else ([], '_' :: c :: cs)
  | c :: cs =>
    if c.isDigit then
      let p := moreDigits cs
      (digitVal c :: p.1, p.2)
    else ([], c :: cs)

/-- Consume a digit group that must start with a digit; fails otherwise. -/
def digitGroup : List Char → Option (List Nat × List Char)
  | c :: cs =>
    if c.isDigit then
      let p := moreDigits cs
      some (digitVal c :: p.1, p.2)
    else none
  | [] => none

/-- Value of a list of decimal digit values, most significant first. -/
def natOfDigits (ds : List Nat) : Nat := ds.foldl (fun a d => a * 10 + d) 0

/-- Exact content of a decimal literal accepted by float(): sign, mantissa
digits as one natural number, number of fraction digits, exponent. -/
structure DecimalLit where
  neg : Bool
  mant : Nat
  fracLen : Nat
  exp : Int
deriving DecidableEq, Repr

/-- Optional leading sign of a float literal. -/
def parseSign : List Char → Bool × List Char
  | '+' :: cs => (false, cs)
  | '-' :: cs => (true, cs)
  | cs => (false, cs)

/-- Optional fraction part: a dot followed by an optional digit group
(float() accepts a trailing bare dot after integer digits). -/
def fracPart : List Char → List Nat × List Char
  | '.' :: cs =>
    match digitGroup cs with
    | some (ds, r) => (ds, r)
    | none => ([], cs)
  | cs => ([], cs)

/-- Mantissa of a float literal: either integer digits with an optional
fraction part, or a dot followed by mandatory fraction digits. -/
def parseMantissa : List Char → Option (List Nat × List Nat × List Char)
  | '.' :: cs =>
    match digitGroup cs with
    | some (fs, r) => some ([], fs, r)
    | none => none
  | cs =>
    match digitGroup cs with
    | some (ds, r) =>
      let p := fracPart r
      some (ds, p.1, p.2)
    | none => none

/-- Exponent digits with their sign. -/
def expDigits (neg : Bool) (cs : List Char) : Option (Int × List Char) :=
  match digitGroup cs with
  | some (ds, r) => some (if neg then -(natOfDigits ds : Int) else (natOfDigits ds : Int), r)
  | none => none

/-- Exponent sign handling after the letter e. -/
def expSigned : List Char → Option (Int × List Char)
  | '+' :: cs => expDigits false cs
  | '-' :: cs => expDigits true cs
  | cs => expDigits false cs

/-- Optional exponent part of a float literal. -/
def expPart : List Char → Option (Int × List Char)
  | 'e' :: cs => expSigned cs
  | 'E' :: cs => expSigned cs
  | cs => some (0, cs)

/-- Model of float(s): parse the string as a decimal literal, failing
exactly when float() raises ValueError (see the module comment for the
modelled fragment).  The whole trimmed string must be consumed. -/
def parseDecimal (s : String) : Option DecimalLit :=
  let cs := trimWs s.data
  let sp := parseSign cs
  match parseMantissa sp.2 with
  | none => none
  | some (ids, fds, r1) =>
    match expPart r1 with
    | none => none
    | some (e, r2) =>
      if r2.isEmpty then some ⟨sp.1, natOfDigits (ids ++ fds), fds.length, e⟩
      else none

/-- Magnitude of a decimal literal as an exact rational. -/
def decMagQ (d : DecimalLit) : ℚ :=
  (d.mant : ℚ) * (10 : ℚ) ^ (d.exp - (d.fracLen : Int))

/-- Exact rational value of a parsed decimal literal. -/
def decVal (d : DecimalLit) : ℚ :=
  if d.neg then -decMagQ d else decMagQ d

/-- Model of float(s) as an exact rational value. -/
def pyFloat (s : String) : Option ℚ := (parseDecimal s).map decVal

/-- Integer part of the magnitude of a decimal literal, computed with
natural-number arithmetic so that it evaluates by kernel reduction. -/
def decMagTrunc (d : DecimalLit) : Nat :=
  if 0 ≤ d.exp - (d.fracLen : Int) then d.mant * 10 ^ (d.exp - (d.fracLen : Int)).toNat
  else d.mant / 10 ^ (-(d.exp - (d.fracLen : Int))).toNat

/-- Model of int() applied to the parsed value: truncation toward zero,
the sign put back on the truncated magnitude. -/
def decTrunc (d : DecimalLit) : Int :=
  if d.neg then -(decMagTrunc d : Int) else (decMagTrunc d : Int)

/-- Parsed fields of one Create Date cell. -/
structure DateTimeYMDHM where
  year : Nat
  month : Nat
  day : Nat
  hour : Nat
  minute : Nat
deriving DecidableEq, Repr

/-- Exactly four ASCII digits, the CPython regex for the year directive. -/
def yearAlt : List Char → Option (Nat × List Char)
  | a :: b :: c :: d :: cs =>
    if a.isDigit && b.isDigit && c.isDigit && d.isDigit then
      some (1000 * digitVal a + 100 * digitVal b + 10 * digitVal c + digitVal d, cs)
    else none
  | _ => none

/-- Month alternatives of the CPython strptime regex, in matching order. -/
def monthAlts (cs : List Char) : List (Nat × List Char) :=
  (match cs with
   | '1' :: c :: r => if '0' ≤ c && c ≤ '2' then [(10 + digitVal c, r)] else []
   | _ => []) ++
  (match cs with
   | '0' :: c :: r => if '1' ≤ c && c ≤ '9' then [(digitVal c, r)] else []
   | _ => []) ++
  (match cs with
   | c :: r => if '1' ≤ c && c ≤ '9' then [(digitVal c, r)] else []
   | _ => [])

/-- Day alternatives of the CPython strptime regex, in matching order. -/
def dayAlts (cs : List Char) : List (Nat × List Char) :=
  (match cs with
   | '3' :: c :: r => if '0' ≤ c && c ≤ '1' then [(30 + digitVal c, r)] else []
   | _ => []) ++
  (match cs with
   | a :: c :: r =>
     if ('1' ≤ a && a ≤ '2') && c.isDigit then [(10 * digitVal a + digitVal c, r)] else []
   | _ => []) ++
  (match cs with
   | '0' :: c :: r => if '1' ≤ c && c ≤ '9' then [(digitVal c, r)] else []
   | _ => []) ++
  (match cs with
   | c :: r => if '1' ≤ c && c ≤ '9' then [(digitVal c, r)] else []
   | _ => [])

/-- Hour alternatives of the CPython strptime regex, in matching order. -/
def hourAlts (cs : List Char) : List (Nat × List Char) :=
  (match cs with
   | '2' :: c :: r => if '0' ≤ c && c ≤ '3' then [(20 + digitVal c, r)] else []
   | _ => []) ++
  (match cs with
   | a :: c :: r =>
     if ('0' ≤ a && a ≤ '1') && c.isDigit then [(10 * digitVal a + digitVal c, r)] else []
   | _ => []) ++
  (match cs with
   | c :: r => if c.isDigit then [(digitVal c, r)] else []
   | _ => [])

/-- Minute alternatives of the CPython strptime regex, in matching order. -/
def minuteAlts (cs : List Char) : List (Nat × List Char) :=
  (match cs with
   | a :: c :: r =>
     if ('0' ≤ a && a ≤ '5') && c.isDigit then [(10 * digitVal a + digitVal c, r)] else []
   | _ => []) ++
  (match cs with
   | c :: r => if c.isDigit then [(digitVal c, r)] else []
   | _ => [])

/-- One or more whitespace characters, as the regex fragment for a literal
space in the format string. -/
def hasWsThen : List Char → Option (List Char)
  | c :: r => if pyIsSpace c then some (r.dropWhile pyIsSpace) else none
  | [] => none

/-- Gregorian leap year rule used by datetime. -/
def isLeapYear (y : Nat) : Bool := y % 4 == 0 && (y % 100 != 0 || y % 400 == 0)

/-- Length of a month as validated by the datetime constructor. -/
def daysInMonth (y m : Nat) : Nat :=
  if m == 2 then (if isLeapYear y then 29 else 28)
  else if m == 4 || m == 6 || m == 9 || m == 11 then 30
  else 31

/-- Field-range validation performed by the datetime constructor. -/
def validYmdHm (dt : DateTimeYMDHM) : Bool :=
  decide (1 ≤ dt.year ∧ dt.year ≤ 9999 ∧ 1 ≤ dt.month ∧ dt.month ≤ 12 ∧
    1 ≤ dt.day ∧ dt.day ≤ daysInMonth dt.year dt.month ∧ dt.hour ≤ 23 ∧ dt.minute ≤ 59)

/-- Model of datetime.strptime(s, the fixed year-month-day hour:minute
pattern): the CPython regex for that pattern, matched against the whole
string with the alternatives in regex order, then constructor
validation.  Failure of any stage is a none, standing for the ValueError
or TypeError the script catches. -/
def strptimeYmdHm (s : String) : Option DateTimeYMDHM :=
  match yearAlt s.data with
  | none => none
  | some (y, cs1) =>
    match cs1 with
    | '-' :: cs2 =>
      (monthAlts cs2).findSome? fun mo =>
        match mo.2 with
        | '-' :: cs3 =>
          (dayAlts cs3).findSome? fun da =>
            match hasWsThen da.2 with
            | some cs4 =>
              (hourAlts cs4).findSome? fun ho =>
                match ho.2 with
                | ':' :: cs5 =>
                  (minuteAlts cs5).findSome? fun mi =>
                    if mi.2.isEmpty then
                      let dt : DateTimeYMDHM := ⟨y, mo.1, da.1, ho.1, mi.1⟩
                      if validYmdHm dt then some dt else none
                    else none
                | _ => none
            | none => none
        | _ => none
    | _ => none

/-- Zero-pad the decimal rendering of a number to the given width. -/
def padNum (w n : Nat) : String :=
  let s := toString n
  (List.replicate (w - s.length) '0').asString ++ s

/-- Model of datetime.isoformat() for a value with zero seconds and no
microseconds: seconds precision, literal T separator. -/
def isoformatYmdHm (dt : DateTimeYMDHM) : String :=
  padNum 4 dt.year ++ "-" ++ padNum 2 dt.month ++ "-" ++ padNum 2 dt.day ++ "T" ++
    padNum 2 dt.hour ++ ":" ++ padNum 2 dt.minute ++ ":00"

/-- One output record, fields in the insertion order of the script dict. -/
structure Record where
  id : String
  firstName : String
  lastName : String
  email : String
  phone : String
  company : String
  industry : String
  state : String
  createDate : String
  trafficSource : String
  trafficSourceDetail : String
  originalTrafficSource : String
  formType : String
  isComplete : Bool
  recordSource : String
  message : String
  leadStatus : String
  formSubmissions : Int
deriving DecidableEq, Repr

/-- Value stored in createDate after the try block: the isoformat text
with a literal Z appended on parse success, the empty string on any
failure (the bare except of the script). -/
def createDateOf (row : Row) : String :=
  match strptimeYmdHm ((row.lookup "Create Date").getD "") with
  | some dt => isoformatYmdHm dt ++ "Z"
  | none => ""

/-- Model of int(float(row.get(key, 0) or 0)) for the form submissions
column: an absent column gives the integer default 0, a present falsy
(empty) cell gives 0 through the or, and any other cell goes through
float() and truncation; a none is the uncaught ValueError. -/
def formSubVal (row : Row) : Option Int :=
  match row.lookup "Number of Form Submissions" with
  | none => some 0
  | some s => if s = "" then some 0 else (parseDecimal s).map decTrunc

/-- The record dict literal of the script, with the already-computed form
submissions value passed in, since that is the one entry whose
evaluation can raise; createDate carries its final, post-update value. -/
def buildRecord (row : Row) (formSubmissions : Int) : Record :=
  { id := pyGetStr row "Record ID"
    firstName := pyGetStr row "First Name"
    lastName := pyGetStr row "Last Name"
    email := pyGetStr row "Email"
    phone := pyGetStr row "Phone Number"
    company := pyGetStr row "Company Name"
    industry := pyGetStr row "Your Industry"
    state := pyGetStr row "State/Region"
    createDate := createDateOf row
    trafficSource := pyGetStr row "Latest Traffic Source"
    trafficSourceDetail := pyGetStr row "Latest Traffic Source Drill-Down 1"
    originalTrafficSource := pyGetStr row "Original Traffic Source"
    formType := pyGetStr row "Record source detail 1"
    isComplete := pyTruthy ((row.lookup "Company Name").getD "") &&
      pyTruthy ((row.lookup "Your Industry").getD "")
    recordSource := pyGetStr row "Record source"
    message := pyGetStr row "Message"
    leadStatus := pyGetStr row "Lead Status"
    formSubmissions := formSubmissions }

/-- One loop iteration: build the record for a row, or propagate the
uncaught exception from the form submissions conversion as none. -/
def processRow (row : Row) : Option Record :=
  (formSubVal row).map (buildRecord row)

/-- The reading loop: process rows in order, appending each record; a
none anywhere aborts the whole run with no output. -/
def convertAll : List Row → Option (List Record)
  | [] => some []
  | r :: rs =>
    match processRow r with
    | none => none
    | some rec =>
      match convertAll rs with
      | none => none
      | some recs => some (rec :: recs)

/-- Lowercase hexadecimal digit, as used by the json escape sequences. -/
def hexDigit (n : Nat) : Char :=
  if n < 10 then Char.ofNat (48 + n) else Char.ofNat (87 + n)

/-- Four lowercase hexadecimal digits. -/
def hex4 (n : Nat) : String :=
  String.mk [hexDigit (n / 4096 % 16), hexDigit (n / 256 % 16), hexDigit (n / 16 % 16),
    hexDigit (n % 16)]

/-- Escape of one character in a json string with ensure ascii: the named
short escapes, printable ASCII verbatim, and u-escapes (with surrogate
pairs beyond the basic plane) for the rest. -/
def jsonEscapeChar (c : Char) : String :=
  if c = '"' then "\\\""
  else if c = '\\' then "\\\\"
  else if c = '\n' then "\\n"
  else if c = '\r' then "\\r"
  else if c = '\t' then "\\t"
  else if c = '\x08' then "\\b"
  else if c = '\x0c' then "\\f"
  else if 32 ≤ c.toNat && c.toNat ≤ 126 then String.singleton c
  else if c.toNat < 65536 then "\\u" ++ hex4 c.toNat
  else
    let v := c.toNat - 65536
    "\\u" ++ hex4 (55296 + v / 1024) ++ "\\u" ++ hex4 (56320 + v % 1024)

/-- Serialization of a json string value. -/
def jsonString (s : String) : String :=
  "\"" ++ String.join (s.data.map jsonEscapeChar) ++ "\""

/-- Serialization of one record as json.dump renders a dict nested in a
list at indent 2: keys in insertion order, key-colon-space separator. -/
def renderRecord (r : Record) : String :=
  "\x7b\n    \"id\": " ++ jsonString r.id ++
  ",\n    \"firstName\": " ++ jsonString r.firstName ++
  ",\n    \"lastName\": " ++ jsonString r.lastName ++
  ",\n    \"email\": " ++ jsonString r.email ++
  ",\n    \"phone\": " ++ jsonString r.phone ++
  ",\n    \"company\": " ++ jsonString r.company ++
  ",\n    \"industry\": " ++ jsonString r.industry ++
  ",\n    \"state\": " ++ jsonString r.state ++
  ",\n    \"createDate\": " ++ jsonString r.createDate ++
  ",\n    \"trafficSource\": " ++ jsonString r.trafficSource ++
  ",\n    \"trafficSourceDetail\": " ++ jsonString r.trafficSourceDetail ++
  ",\n    \"originalTrafficSource\": " ++ jsonString r.originalTrafficSource ++
  ",\n    \"formType\": " ++ jsonString r.formType ++
  ",\n    \"isComplete\": " ++ (if r.isComplete then "true" else "false") ++
  ",\n    \"recordSource\": " ++ jsonString r.recordSource ++
  ",\n    \"message\": " ++ jsonString r.message ++
  ",\n    \"leadStatus\": " ++ jsonString r.leadStatus ++
  ",\n    \"formSubmissions\": " ++ toString r.formSubmissions ++
  "\n  \x7d"

/-- Serialization of the whole record list as json.dump with indent 2
writes it: the exact byte content of the output file. -/
def renderOutput (rs : List Record) : String :=
  match rs with
  | [] => "[]"
  | _ => "[\n  " ++ String.intercalate ",\n  " (rs.map renderRecord) ++ "\n]"

/-- Bytes written to the output file for a list of input rows, none when
the run aborts on an uncaught exception. -/
def outputText (rows : List Row) : Option String :=
  (convertAll rows).map renderOutput

/-- Field value required by the spec for the plain string fields: the
source cell verbatim, or the empty string when the cell is absent or
empty.  Stated from the spec wording, to be compared with the lookup the
script performs. -/
def specStringField (row : Row) (k : String) : String :=
  match row.lookup k with
  | none => ""
  | some s => if s = "" then "" else s

/-- Refinement of the script lookup chain against the spec wording. -/
theorem pyGetStr_eq_specStringField (row : Row) (k : String) :
    pyGetStr row k = specStringField row k := by
  unfold pyGetStr specStringField pyOrStr
  cases h : row.lookup k with
  | none => simp
  | some s => by_cases hs : s = "" <;> simp [hs]

/-- C1: for every row that yields a record, isComplete is true exactly
when both the Company Name cell and the Your Industry cell are present
and non-empty; a missing column or an empty cell counts as false. -/
theorem isComplete_iff_company_and_industry_present_nonempty (row : Row) (rec : Record)
    (h : processRow row = some rec) :
    rec.isComplete = true ↔
      ((∃ s, row.lookup "Company Name" = some s ∧ s ≠ "") ∧
        (∃ s, row.lookup "Your Industry" = some s ∧ s ≠ "")) := by
  obtain ⟨n, -, hrec⟩ := Option.map_eq_some'.mp h
  subst hrec
  show (pyTruthy ((row.lookup "Company Name").getD "") &&
      pyTruthy ((row.lookup "Your Industry").getD "")) = true ↔ _
  cases hc : row.lookup "Company Name" <;> cases hi : row.lookup "Your Industry" <;>
    simp [pyTruthy, bne_iff_ne]

theorem isComplete_concrete_company_industry :
    (buildRecord [("Company Name", "Acme"), ("Your Industry", "Tech")] 0).isComplete = true := by
  have h := isComplete_iff_company_and_industry_present_nonempty
    [("Company Name", "Acme"), ("Your Industry", "Tech")]
    (buildRecord [("Company Name", "Acme"), ("Your Industry", "Tech")] 0) (by decide)
  exact h.mpr ⟨⟨"Acme", by decide, by decide⟩, ⟨"Tech", by decide, by decide⟩⟩

/-- C2: each plain string field named in the claim equals the source cell
verbatim, or the empty string when the cell is absent or empty. -/
theorem plain_string_fields_verbatim_or_empty (row : Row) (rec : Record)
    (h : processRow row = some rec) :
    rec.id = specStringField row "Record ID" ∧
    rec.firstName = specStringField row "First Name" ∧
    rec.lastName = specStringField row "Last Name" ∧
    rec.email = specStringField row "Email" ∧
    rec.phone = specStringField row "Phone Number" ∧
    rec.company = specStringField row "Company Name" ∧
    rec.industry = specStringField row "Your Industry" ∧
    rec.state = specStringField row "State/Region" ∧
    rec.trafficSource = specStringField row "Latest Traffic Source" ∧
    rec.trafficSourceDetail = specStringField row "Latest Traffic Source Drill-Down 1" ∧
    rec.originalTrafficSource = specStringField row "Original Traffic Source" ∧
    rec.formType = specStringField row "Record source detail 1" ∧
    rec.recordSource = specStringField row "Record source" ∧
    rec.message = specStringField row "Message" ∧
    rec.leadStatus = specStringField row "Lead Status" := by
  obtain ⟨n, -, hrec⟩ := Option.map_eq_some'.mp h
  subst hrec
  refine ⟨?_, ?_, ?_, ?_, ?_, ?_, ?_, ?_, ?_, ?_, ?_, ?_, ?_, ?_, ?_⟩ <;>
    exact pyGetStr_eq_specStringField row _

theorem plain_string_fields_concrete :
    (buildRecord [("Record ID", "42"), ("Last Name", "")] 0).id = "42" ∧
    (buildRecord [("Record ID", "42"), ("Last Name", "")] 0).lastName = "" ∧
    (buildRecord [("Record ID", "42"), ("Last Name", "")] 0).email = "" := by
  have h := plain_string_fields_verbatim_or_empty [("Record ID", "42"), ("Last Name", "")]
    (buildRecord [("Record ID", "42"), ("Last Name", "")] 0) (by decide)
  exact ⟨h.1.trans (by decide), h.2.2.1.trans (by decide), h.2.2.2.1.trans (by decide)⟩

/-- C3: createDate is the isoformat text of the parsed Create Date cell
with a literal Z appended when the fixed-pattern parse succeeds, and the
empty string on any parse failure, with no error raised. -/
theorem createDate_iso_with_z_or_empty (row : Row) (rec : Record)
    (h : processRow row = some rec) :
    (strptimeYmdHm ((row.lookup "Create Date").getD "") = none → rec.createDate = "") ∧
    (∀ dt, strptimeYmdHm ((row.lookup "Create Date").getD "") = some dt →
      rec.createDate = isoformatYmdHm dt ++ "Z") := by
  obtain ⟨n, -, hrec⟩ := Option.map_eq_some'.mp h
  subst hrec
  constructor
  · intro hp
    show createDateOf row = ""
    simp [createDateOf, hp]
  · intro dt hp
    show createDateOf row = _
    simp [createDateOf, hp]

theorem createDate_concrete_examples :
    (∃ rec, processRow [("Create Date", "2024-03-15 14:30")] = some rec ∧
      rec.createDate = "2024-03-15T14:30:00Z") ∧
    (∃ rec, processRow [("Create Date", "not-a-date")] = some rec ∧
      rec.createDate = "") := by
  constructor
  · refine ⟨buildRecord [("Create Date", "2024-03-15 14:30")] 0, by decide, ?_⟩
    have h := (createDate_iso_with_z_or_empty [("Create Date", "2024-03-15 14:30")]
      (buildRecord [("Create Date", "2024-03-15 14:30")] 0) (by decide)).2
      ⟨2024, 3, 15, 14, 30⟩ (by decide)
    exact h.trans (by decide)
  · refine ⟨buildRecord [("Create Date", "not-a-date")] 0, by decide, ?_⟩
    exact (createDate_iso_with_z_or_empty [("Create Date", "not-a-date")]
      (buildRecord [("Create Date", "not-a-date")] 0) (by decide)).1 (by decide)

/-- C4: the form submissions conversion parses the cell as a float and
truncates to an integer, with 0 for an absent column: the spec examples
0, 3, 2.7 and the absent case. -/
theorem formSubmissions_float_truncation_examples (row : Row) :
    (row.lookup "Number of Form Submissions" = some "0" →
      ∃ rec, processRow row = some rec ∧ rec.formSubmissions = 0) ∧
    (row.lookup "Number of Form Submissions" = some "3" →
      ∃ rec, processRow row = some rec ∧ rec.formSubmissions = 3) ∧
    (row.lookup "Number of Form Submissions" = some "2.7" →
      ∃ rec, processRow row = some rec ∧ rec.formSubmissions = 2) ∧
    (row.lookup "Number of Form Submissions" = none →
      ∃ rec, processRow row = some rec ∧ rec.formSubmissions = 0) := by
  refine ⟨fun h => ?_, fun h => ?_, fun h => ?_, fun h => ?_⟩
  · have hv : formSubVal row = some 0 := by unfold formSubVal; rw [h]; decide
    exact ⟨buildRecord row 0, by unfold processRow; rw [hv]; rfl, rfl⟩
  · have hv : formSubVal row = some 3 := by unfold formSubVal; rw [h]; decide
    exact ⟨buildRecord row 3, by unfold processRow; rw [hv]; rfl, rfl⟩
  · have hv : formSubVal row = some 2 := by unfold formSubVal; rw [h]; decide
    exact ⟨buildRecord row 2, by unfold processRow; rw [hv]; rfl, rfl⟩
  · have hv : formSubVal row = some 0 := by unfold formSubVal; rw [h]
    exact ⟨buildRecord row 0, by unfold processRow; rw [hv]; rfl, rfl⟩

theorem formSubmissions_examples_concrete :
    (∃ rec, processRow [("Number of Form Submissions", "2.7")] = some rec ∧
      rec.formSubmissions = 2) ∧
    (∃ rec, processRow ([] : Row) = some rec ∧ rec.formSubmissions = 0) :=
  ⟨(formSubmissions_float_truncation_examples
      [("Number of Form Submissions", "2.7")]).2.2.1 (by decide),
    (formSubmissions_float_truncation_examples ([] : Row)).2.2.2 (by decide)⟩

/-- C5 counterexample: a row whose form submissions cell holds text that
is not a number makes the row-to-record operation fail, so the claimed
never-fails contract is false as stated. -/
theorem processRow_fails_on_nonnumeric_cell :
    processRow [("Number of Form Submissions", "abc")] = none := by decide

/-- C5 amended: the row-to-record operation yields exactly one record and
cannot fail provided the form submissions cell, when present and
non-empty, parses as a number; that cell is the only error path, every
other missing or malformed field degrades to a default. -/
theorem processRow_total_unless_nonnumeric_formSubmissions (row : Row)
    (h : ((row.lookup "Number of Form Submissions").all
      fun s => s == "" || (parseDecimal s).isSome) = true) :
    ∃ rec, processRow row = some rec := by
  cases hl : row.lookup "Number of Form Submissions" with
  | none =>
    exact ⟨buildRecord row 0, by unfold processRow formSubVal; rw [hl]; rfl⟩
  | some s =>
    rw [hl] at h
    simp only [Option.all_some, Bool.or_eq_true, beq_iff_eq, Option.isSome_iff_exists] at h
    rcases h with h | ⟨d, hd⟩
    · subst h
      exact ⟨buildRecord row 0, by unfold processRow formSubVal; rw [hl]; rfl⟩
    · by_cases hs : s = ""
      · subst hs
        exact ⟨buildRecord row 0, by unfold processRow formSubVal; rw [hl]; rfl⟩
      · refine ⟨buildRecord row (decTrunc d), ?_⟩
        unfold processRow formSubVal
        rw [hl]
        show Option.map (buildRecord row)
          (if s = "" then some 0 else Option.map decTrunc (parseDecimal s)) = _
        rw [if_neg hs, hd]
        rfl

theorem processRow_total_concrete :
    ∃ rec, processRow [("Number of Form Submissions", "3.5")] = some rec :=
  processRow_total_unless_nonnumeric_formSubmissions
    [("Number of Form Submissions", "3.5")] (by decide)

/-- C6: a present, non-empty form submissions cell that does not parse as
a number makes the row processing raise an uncaught error, aborting the
run instead of degrading to a default. -/
theorem nonnumeric_formSubmissions_aborts_run (row : Row) (s : String)
    (h1 : row.lookup "Number of Form Submissions" = some s) (h2 : s ≠ "")
    (h3 : parseDecimal s = none) : processRow row = none := by
  unfold processRow formSubVal
  rw [h1]
  show Option.map (buildRecord row)
    (if s = "" then some 0 else Option.map decTrunc (parseDecimal s)) = none
  rw [if_neg h2, h3]
  rfl

theorem nonnumeric_formSubmissions_aborts_concrete :
    processRow [("Number of Form Submissions", "not a number")] = none :=
  nonnumeric_formSubmissions_aborts_run [("Number of Form Submissions", "not a number")]
    "not a number" (by decide) (by decide) (by decide)

/-- C7: a completed run yields exactly one record per data row and keeps
the input order: the record at every index is the one produced from the
row at the same index. -/
theorem convertAll_preserves_length_and_order (rows : List Row) (recs : List Record)
    (h : convertAll rows = some recs) :
    recs.length = rows.length ∧
      ∀ i (hi : i < rows.length) (hi2 : i < recs.length),
        processRow (rows.get ⟨i, hi⟩) = some (recs.get ⟨i, hi2⟩) := by
  induction rows generalizing recs with
  | nil =>
    unfold convertAll at h
    injection h with h
    subst h
    exact ⟨rfl, fun i hi _ => absurd hi (Nat.not_lt_zero i)⟩
  | cons r rs ih =>
    unfold convertAll at h
    cases hp : processRow r <;> rw [hp] at h
    · exact absurd h (by simp)
    · cases hc : convertAll rs <;> rw [hc] at h
      · exact absurd h (by simp)
      · rename_i rec0 recs0
        injection h with h
        subst h
        obtain ⟨hl, ho⟩ := ih recs0 hc
        refine ⟨by simp [hl], ?_⟩
        intro i hi hi2
        cases i with
        | zero => simpa using hp
        | succ j =>
          have hj : j < rs.length := by simpa using hi
          have hj2 : j < recs0.length := by simpa using hi2
          simpa using ho j hj hj2

theorem convertAll_two_rows_concrete :
    (buildRecord [("Record ID", "1")] 0 :: buildRecord [("Record ID", "2")] 0 :: []).length =
      ([("Record ID", "1")] :: [("Record ID", "2")] :: [] : List Row).length :=
  (convertAll_preserves_length_and_order
    ([("Record ID", "1")] :: [("Record ID", "2")] :: [])
    (buildRecord [("Record ID", "1")] 0 :: buildRecord [("Record ID", "2")] 0 :: [])
    (by decide)).1

/-- C8: the conversion is deterministic: the output bytes produced for one
and the same row sequence are unique, so two runs on identical input
write identical files. -/
theorem conversion_deterministic (rows : List Row) (o1 o2 : Option String)
    (h1 : outputText rows = o1) (h2 : outputText rows = o2) : o1 = o2 :=
  h1.symm.trans h2

theorem conversion_deterministic_concrete :
    (some "[]" : Option String) = some "[]" :=
  conversion_deterministic [] (some "[]") (some "[]") (by decide) (by decide)

/-- C9: a present but empty form submissions cell degrades to zero with no
error, exactly like an absent column. -/
theorem empty_formSubmissions_cell_defaults_to_zero (row : Row)
    (h : row.lookup "Number of Form Submissions" = some "") :
    ∃ rec, processRow row = some rec ∧ rec.formSubmissions = 0 :=
  ⟨buildRecord row 0, by unfold processRow formSubVal; rw [h]; rfl, rfl⟩

theorem empty_formSubmissions_cell_concrete :
    ∃ rec, processRow [("Number of Form Submissions", "")] = some rec ∧
      rec.formSubmissions = 0 :=
  empty_formSubmissions_cell_defaults_to_zero [("Number of Form Submissions", "")] (by decide)

/-- Helper: a rational with denominator other than one lies strictly
above its floor. -/
theorem floor_lt_of_den_ne_one (q : ℚ) (h : q.den ≠ 1) : (⌊q⌋ : ℚ) < q := by
  rcases lt_or_eq_of_le (Int.floor_le q) with h1 | h1
  · exact h1
  · exact absurd (h1 ▸ Rat.den_intCast ⌊q⌋) h

/-- Helper: for a non-integral rational the ceiling is the floor plus
one. -/
theorem ceil_eq_floor_add_one_of_den_ne_one (q : ℚ) (h : q.den ≠ 1) : ⌈q⌉ = ⌊q⌋ + 1 := by
  have h1 : (⌊q⌋ : ℚ) < q := floor_lt_of_den_ne_one q h
  have h2 : ⌊q⌋ < ⌈q⌉ := by exact_mod_cast h1.trans_le (Int.le_ceil q)
  have h3 : ⌈q⌉ ≤ ⌊q⌋ + 1 := by
    rw [Int.ceil_le]
    push_cast
    exact le_of_lt (Int.lt_floor_add_one q)
  omega

/-- Helper: the floor of a quotient of naturals in the rationals is the
natural-number quotient. -/
theorem floor_natCast_div_pow (a m : Nat) :
    ⌊(a : ℚ) / ((10 : ℚ) ^ m)⌋ = ((a / 10 ^ m : ℕ) : ℤ) := by
  have h0 : (0 : ℚ) ≤ (a : ℚ) / 10 ^ m := by positivity
  have h1 : ((10 : ℚ) ^ m) = ((10 ^ m : ℕ) : ℚ) := by push_cast; ring
  rw [← Int.natCast_floor_eq_floor h0, h1, Nat.floor_div_nat, Nat.floor_natCast]

/-- Helper: on a negative non-integral literal value, the truncation the
script computes is the ceiling of the exact value. -/
theorem decTrunc_eq_ceil_of_neg (d : DecimalLit) (hneg : decVal d < 0)
    (hden : (decVal d).den ≠ 1) : decTrunc d = ⌈decVal d⌉ := by
  have hmag : (0 : ℚ) ≤ decMagQ d := by
    rw [decMagQ]
    positivity
  cases hb : d.neg with
  | false =>
    rw [decVal, hb, if_neg (by simp)] at hneg
    exact absurd hneg (not_lt.mpr hmag)
  | true =>
    rw [decVal, hb, if_pos rfl] at hneg hden ⊢
    rw [decTrunc, hb, if_pos rfl, Int.ceil_neg, neg_inj]
    by_cases ht : (0 : Int) ≤ d.exp - (d.fracLen : Int)
    · exfalso
      obtain ⟨k, hk⟩ : ∃ k : ℕ, d.exp - (d.fracLen : Int) = (k : ℤ) :=
        ⟨(d.exp - (d.fracLen : Int)).toNat, (Int.toNat_of_nonneg ht).symm⟩
      have hq : decMagQ d = ((d.mant * 10 ^ k : ℕ) : ℚ) := by
        rw [decMagQ, hk, zpow_natCast]
        push_cast
        ring
      rw [hq, Rat.neg_den, Rat.den_natCast] at hden
      exact hden rfl
    · obtain ⟨k, hk⟩ : ∃ k : ℕ, d.exp - (d.fracLen : Int) = -(k : ℤ) :=
        ⟨(-(d.exp - (d.fracLen : Int))).toNat, by omega⟩
      have hq : decMagQ d = (d.mant : ℚ) / ((10 : ℚ) ^ k) := by
        rw [decMagQ, hk, zpow_neg, zpow_natCast, div_eq_mul_inv]
      have hkt : (-(d.exp - (d.fracLen : Int))).toNat = k := by omega
      rw [decMagTrunc, if_neg ht, hkt, hq, floor_natCast_div_pow]

/-- C10: the form submissions conversion truncates toward zero, not
toward negative infinity: on a cell whose numeric value is negative and
fractional, the stored integer is the ceiling of the value, one above
its floor. -/
theorem formSubmissions_truncates_toward_zero (row : Row) (s : String) (q : ℚ)
    (h1 : row.lookup "Number of Form Submissions" = some s)
    (h2 : pyFloat s = some q) (h3 : q < 0) (h4 : q.den ≠ 1) :
    ∃ rec, processRow row = some rec ∧ rec.formSubmissions = ⌈q⌉ ∧ ⌈q⌉ = ⌊q⌋ + 1 := by
  obtain ⟨d, hd, hdv⟩ := Option.map_eq_some'.mp h2
  have hs : s ≠ "" := by
    intro he
    rw [he, show parseDecimal "" = none from by decide] at hd
    exact Option.noConfusion hd
  refine ⟨buildRecord row (decTrunc d), ?_, ?_, ceil_eq_floor_add_one_of_den_ne_one q h4⟩
  · unfold processRow formSubVal
    rw [h1]
    show Option.map (buildRecord row)
      (if s = "" then some 0 else Option.map decTrunc (parseDecimal s)) = _
    rw [if_neg hs, hd]
    rfl
  · show decTrunc d = ⌈q⌉
    rw [← hdv]
    exact decTrunc_eq_ceil_of_neg d (by rw [hdv]; exact h3) (by rw [hdv]; exact h4)

theorem formSubmissions_negative_fraction_concrete :
    ∃ rec, processRow [("Number of Form Submissions", "-2.7")] = some rec ∧
      rec.formSubmissions = -2 := by
  have hparse : parseDecimal "-2.7" = some ⟨true, 27, 1, 0⟩ := by decide
  have hq : decVal ⟨true, 27, 1, 0⟩ = -(27 / 10 : ℚ) := by
    simp only [decVal, decMagQ]
    norm_num
  have h2 : pyFloat "-2.7" = some (-(27 / 10 : ℚ)) := by
    rw [pyFloat, hparse, Option.map_some', hq]
  have h3 : (-(27 / 10 : ℚ)) < 0 := by norm_num
  have h4 : (-(27 / 10 : ℚ)).den ≠ 1 := by
    intro hc
    have h5 := (Rat.den_eq_one_iff _).mp hc
    have h6 : (10 : ℚ) * ((-(27 / 10 : ℚ)).num : ℚ) = -27 := by
      rw [h5]
      ring
    have h7 : (10 * (-(27 / 10 : ℚ)).num : ℤ) = -27 := by exact_mod_cast h6
    omega
  obtain ⟨rec, hrec, hfs, -⟩ := formSubmissions_truncates_toward_zero
    [("Number of Form Submissions", "-2.7")] "-2.7" (-(27 / 10 : ℚ)) (by decide) h2 h3 h4
  refine ⟨rec, hrec, ?_⟩
  rw [hfs, Int.ceil_neg]
  rw [neg_eq_iff_eq_neg, neg_neg, Int.floor_eq_iff]
  norm_num
